import Mathlib

/-!
Shallow embedding of the Nginx-proxy design-pattern example
(`src/proxy/src/main.rs`): an `NginxServer` proxies an inner `Application`
behind per-route rate limiting.

The Rust `HashMap<String, u32>` is modelled as a function
`String → Option Nat`; counter values stay far below `2 ^ 32`, so `Nat`
arithmetic agrees with `u32`.  Mutation of `&mut self` is modelled by
returning the updated server alongside the result.
-/

/-- The inner application server (a field-less struct in the source). -/
structure Application

/-- `impl Server for Application`: a fixed routing table; any pair that
matches no entry yields `(404, "Not Ok")`. -/
def Application.handle_request (_a : Application) (url method : String) :
    Nat × String :=
  if url = "/app/status" ∧ method = "GET" then (200, "Ok")
  else if url = "/create/user" ∧ method = "POST" then (201, "User Created")
  else (404, "Not Ok")

/-- Insertion into the map model of `HashMap<String, u32>`. -/
def mapInsert (m : String → Option Nat) (k : String) (v : Nat) :
    String → Option Nat :=
  fun q => if q = k then some v else m q

/-- The proxy server: wraps the application, a request maximum and the
per-route counters. -/
structure NginxServer where
  application : Application
  max_allowed_requests : Nat
  rate_limiter : String → Option Nat

/-- `NginxServer::new()`: maximum of 2, empty counter map. -/
def NginxServer.new : NginxServer :=
  { application := Application.mk
    max_allowed_requests := 2
    rate_limiter := fun _ => none }

/-- `NginxServer::check_rate_limiting`: `entry(url).or_insert(1)` yields the
current counter (or `1` if absent, which is then stored); if it exceeds the
maximum the call is rejected without incrementing, otherwise the counter is
incremented and the call allowed. -/
def NginxServer.check_rate_limiting (s : NginxServer) (url : String) :
    Bool × NginxServer :=
  if s.max_allowed_requests < (s.rate_limiter url).getD 1 then
    (false,
      { s with rate_limiter := mapInsert s.rate_limiter url ((s.rate_limiter url).getD 1) })
  else
    (true,
      { s with rate_limiter := mapInsert s.rate_limiter url ((s.rate_limiter url).getD 1 + 1) })

/-- `impl Server for NginxServer`: consult the rate limiter first; on
rejection answer `(403, "Not Allowed")`, otherwise delegate to the inner
application. -/
def NginxServer.handle_request (s : NginxServer) (url method : String) :
    (Nat × String) × NginxServer :=
  if (s.check_rate_limiting url).1 then
    ((s.check_rate_limiting url).2.application.handle_request url method,
      (s.check_rate_limiting url).2)
  else
    ((403, "Not Allowed"), (s.check_rate_limiting url).2)

/-- One externally visible operation on the proxy. -/
inductive Req where
  | check (url : String)
  | handle (url method : String)

/-- The route an operation addresses. -/
def Req.url : Req → String
  | .check u => u
  | .handle u _ => u

/-- State transition of one operation. -/
def applyReq (s : NginxServer) : Req → NginxServer
  | .check u => (s.check_rate_limiting u).2
  | .handle u m => (s.handle_request u m).2

/-- Run a sequence of operations from a state. -/
def runReqs (s : NginxServer) (rs : List Req) : NginxServer :=
  rs.foldl applyReq s

/-- Run a sequence of bare `check_rate_limiting` calls from a state. -/
def runCalls (s : NginxServer) (urls : List String) : NginxServer :=
  urls.foldl (fun t u => (t.check_rate_limiting u).2) s

/-- Every stored counter lies between `1` and `max_allowed_requests + 1`. -/
def RateInv (s : NginxServer) : Prop :=
  ∀ r c, s.rate_limiter r = some c → 1 ≤ c ∧ c ≤ s.max_allowed_requests + 1

/-- A server after one `check_rate_limiting` call on route `/a`. -/
def sA : NginxServer := (NginxServer.new.check_rate_limiting "/a").2

/-- A server after two `check_rate_limiting` calls on route `/a`. -/
def sAA : NginxServer := (sA.check_rate_limiting "/a").2

lemma check_snd_max (s : NginxServer) (u : String) :
    ((s.check_rate_limiting u).2).max_allowed_requests = s.max_allowed_requests := by
  unfold NginxServer.check_rate_limiting
  split <;> rfl

lemma check_snd_other (s : NginxServer) (u r : String) (h : r ≠ u) :
    ((s.check_rate_limiting u).2).rate_limiter r = s.rate_limiter r := by
  unfold NginxServer.check_rate_limiting
  split <;> simp [mapInsert, h]

lemma check_fst_eq (s : NginxServer) (u : String) :
    (s.check_rate_limiting u).1
      = decide ((s.rate_limiter u).getD 1 ≤ s.max_allowed_requests) := by
  unfold NginxServer.check_rate_limiting
  by_cases h : s.max_allowed_requests < (s.rate_limiter u).getD 1
  · simp [h, Nat.not_le_of_lt h]
  · simp [h, Nat.le_of_not_lt h]

lemma check_fst_false_iff (s : NginxServer) (u : String) :
    (s.check_rate_limiting u).1 = false ↔
      s.max_allowed_requests < (s.rate_limiter u).getD 1 := by
  rw [check_fst_eq]
  simp [Nat.not_le]

lemma check_snd_self_allowed (s : NginxServer) (u : String)
    (h : (s.check_rate_limiting u).1 = true) :
    ((s.check_rate_limiting u).2).rate_limiter u
      = some ((s.rate_limiter u).getD 1 + 1) := by
  rw [check_fst_eq] at h
  unfold NginxServer.check_rate_limiting
  rw [if_neg (by simpa using Nat.not_lt_of_le (by simpa using h))]
  simp [mapInsert]

lemma check_snd_self_rejected (s : NginxServer) (u : String)
    (h : (s.check_rate_limiting u).1 = false) :
    ((s.check_rate_limiting u).2).rate_limiter u
      = some ((s.rate_limiter u).getD 1) := by
  rw [check_fst_false_iff] at h
  unfold NginxServer.check_rate_limiting
  rw [if_pos h]
  simp [mapInsert]

lemma handle_snd_eq (s : NginxServer) (u m : String) :
    (s.handle_request u m).2 = (s.check_rate_limiting u).2 := by
  unfold NginxServer.handle_request
  split <;> rfl

lemma handle_fst_eq (s : NginxServer) (u m : String) :
    (s.handle_request u m).1
      = if (s.check_rate_limiting u).1 then Application.mk.handle_request u m
        else (403, "Not Allowed") := by
  unfold NginxServer.handle_request
  split <;> simp_all

/-- C1: on a fresh server (maximum 2), for any route the first two
`check_rate_limiting` calls return `true` and the third returns `false`. -/
theorem first_two_allowed_third_rejected (r : String) :
    (NginxServer.new.check_rate_limiting r).1 = true ∧
    ((NginxServer.new.check_rate_limiting r).2.check_rate_limiting r).1 = true ∧
    (((NginxServer.new.check_rate_limiting r).2.check_rate_limiting r).2.check_rate_limiting r).1
      = false := by
  simp [NginxServer.new, NginxServer.check_rate_limiting, mapInsert]

/-- C2: three successive `handle_request("/app/status", "GET")` calls on a
fresh server answer `(200, "Ok")`, `(200, "Ok")`, `(403, "Not Allowed")`. -/
theorem app_status_three_calls :
    (NginxServer.new.handle_request "/app/status" "GET").1 = (200, "Ok") ∧
    ((NginxServer.new.handle_request "/app/status" "GET").2.handle_request
        "/app/status" "GET").1 = (200, "Ok") ∧
    (((NginxServer.new.handle_request "/app/status" "GET").2.handle_request
        "/app/status" "GET").2.handle_request "/app/status" "GET").1
      = (403, "Not Allowed") := by
  decide

/-- C3: `handle_request` answers `(403, "Not Allowed")` when the rate check
rejects, and otherwise returns exactly the inner application's answer; in
both cases the resulting state is the rate check's state, so the inner
handler contributes nothing else. -/
theorem proxy_rejects_or_delegates (s : NginxServer) (url method : String) :
    ((s.check_rate_limiting url).1 = false →
      s.handle_request url method
        = ((403, "Not Allowed"), (s.check_rate_limiting url).2)) ∧
    ((s.check_rate_limiting url).1 = true →
      s.handle_request url method
        = (s.application.handle_request url method,
            (s.check_rate_limiting url).2)) := by
  constructor <;> intro h <;>
    simp [NginxServer.handle_request, h, Application.handle_request]

/-- Witness for C3 at a concrete allowed request. -/
theorem proxy_rejects_or_delegates_witness :
    NginxServer.new.handle_request "/app/status" "GET"
      = (NginxServer.new.application.handle_request "/app/status" "GET",
          (NginxServer.new.check_rate_limiting "/app/status").2) :=
  (proxy_rejects_or_delegates NginxServer.new "/app/status" "GET").2 (by decide)

/-- C5 as stated is false: on a fresh server the first call for a route
returns `true` but leaves the stored counter at `2`, not `1`. -/
theorem fresh_route_counter_not_one :
    NginxServer.new.rate_limiter "/a" = none ∧
    (NginxServer.new.check_rate_limiting "/a").1 = true ∧
    ((NginxServer.new.check_rate_limiting "/a").2).rate_limiter "/a" ≠ some 1 ∧
    ((NginxServer.new.check_rate_limiting "/a").2).rate_limiter "/a" = some 2 := by
  refine ⟨rfl, by decide, by decide, by decide⟩

/-- C5 amended: with no stored counter and a maximum of at least one, the
counter is initialized to `1`, the call is allowed and the increment leaves
the stored counter at `2`. -/
theorem absent_route_initialized_and_incremented (s : NginxServer) (url : String)
    (h0 : s.rate_limiter url = none) (h1 : 1 ≤ s.max_allowed_requests) :
    (s.check_rate_limiting url).1 = true ∧
    ((s.check_rate_limiting url).2).rate_limiter url = some 2 := by
  have hn : ¬ s.max_allowed_requests < (s.rate_limiter url).getD 1 := by
    rw [h0]
    exact Nat.not_lt_of_le h1
  unfold NginxServer.check_rate_limiting
  rw [if_neg hn]
  simp [mapInsert, h0]

/-- Witness for the amended C5 on a fresh server. -/
theorem absent_route_initialized_and_incremented_witness :
    (NginxServer.new.check_rate_limiting "/b").1 = true ∧
    ((NginxServer.new.check_rate_limiting "/b").2).rate_limiter "/b" = some 2 :=
  absent_route_initialized_and_incremented NginxServer.new "/b" rfl (by decide)

/-- C6: while the quota of `/create/user` is not exceeded, a `POST` yields
`(201, "User Created")` and a mismatched `GET` yields `(404, "Not Ok")`. -/
theorem create_user_routing (s : NginxServer)
    (h : (s.rate_limiter "/create/user").getD 1 ≤ s.max_allowed_requests) :
    (s.handle_request "/create/user" "POST").1 = (201, "User Created") ∧
    (s.handle_request "/create/user" "GET").1 = (404, "Not Ok") := by
  have ht : (s.check_rate_limiting "/create/user").1 = true := by
    rw [check_fst_eq]
    simpa using h
  rw [handle_fst_eq, handle_fst_eq, ht]
  decide

/-- Witness for C6 on a fresh server. -/
theorem create_user_routing_witness :
    (NginxServer.new.handle_request "/create/user" "POST").1 = (201, "User Created") ∧
    (NginxServer.new.handle_request "/create/user" "GET").1 = (404, "Not Ok") :=
  create_user_routing NginxServer.new (by decide)

lemma check_stuck (s : NginxServer) (u r : String) (c : Nat)
    (hc : s.rate_limiter r = some c) (hm : s.max_allowed_requests < c) :
    ((s.check_rate_limiting u).2).rate_limiter r = some c ∧
    ((s.check_rate_limiting u).2).max_allowed_requests = s.max_allowed_requests := by
  refine ⟨?_, check_snd_max s u⟩
  by_cases hru : r = u
  · subst hru
    have hf : (s.check_rate_limiting r).1 = false :=
      (check_fst_false_iff s r).mpr (by rw [hc]; exact hm)
    rw [check_snd_self_rejected s r hf, hc]
    rfl
  · rw [check_snd_other s u r hru, hc]

lemma runCalls_stuck (urls : List String) (s : NginxServer) (r : String) (c : Nat)
    (hc : s.rate_limiter r = some c) (hm : s.max_allowed_requests < c) :
    (runCalls s urls).rate_limiter r = some c ∧
    (runCalls s urls).max_allowed_requests = s.max_allowed_requests := by
  induction urls generalizing s with
  | nil => exact ⟨hc, rfl⟩
  | cons u us ih =>
    obtain ⟨h1, h2⟩ := check_stuck s u r c hc hm
    obtain ⟨h3, h4⟩ := ih ((s.check_rate_limiting u).2) h1 (h2 ▸ hm)
    exact ⟨h3, h4.trans h2⟩

lemma applyReq_max (s : NginxServer) (q : Req) :
    (applyReq s q).max_allowed_requests = s.max_allowed_requests := by
  cases q with
  | check u => exact check_snd_max s u
  | handle u m =>
    show ((s.handle_request u m).2).max_allowed_requests = _
    rw [handle_snd_eq]
    exact check_snd_max s u

lemma applyReq_other (s : NginxServer) (q : Req) (r : String) (h : r ≠ q.url) :
    (applyReq s q).rate_limiter r = s.rate_limiter r := by
  cases q with
  | check u => exact check_snd_other s u r h
  | handle u m =>
    show ((s.handle_request u m).2).rate_limiter r = _
    rw [handle_snd_eq]
    exact check_snd_other s u r h

lemma runReqs_frame (rs : List Req) (s : NginxServer) (r : String)
    (h : ∀ q ∈ rs, r ≠ q.url) :
    (runReqs s rs).rate_limiter r = s.rate_limiter r ∧
    (runReqs s rs).max_allowed_requests = s.max_allowed_requests := by
  induction rs generalizing s with
  | nil => exact ⟨rfl, rfl⟩
  | cons q qs ih =>
    have h1 := applyReq_other s q r (h q (List.mem_cons_self q qs))
    have h2 := applyReq_max s q
    obtain ⟨h3, h4⟩ := ih (applyReq s q) (fun p hp => h p (List.mem_cons_of_mem q hp))
    exact ⟨h3.trans h1, h4.trans h2⟩

/-- C4: every `check_rate_limiting` call leaves every stored counter at
least as large as before; a rejected call does not change the rejected
route's counter; and after a rejection, no sequence of further calls moves
that counter, every later check of the route being rejected as well. -/
theorem counter_monotone_and_stuck (s : NginxServer) (url : String) :
    (∀ r c, s.rate_limiter r = some c →
      ∃ d, ((s.check_rate_limiting url).2).rate_limiter r = some d ∧ c ≤ d) ∧
    ((s.check_rate_limiting url).1 = false →
      ∀ c, s.rate_limiter url = some c →
        ((s.check_rate_limiting url).2).rate_limiter url = some c) ∧
    ((s.check_rate_limiting url).1 = false →
      ∀ urls,
        (runCalls ((s.check_rate_limiting url).2) urls).rate_limiter url
          = ((s.check_rate_limiting url).2).rate_limiter url ∧
        ((runCalls ((s.check_rate_limiting url).2) urls).check_rate_limiting url).1
          = false) := by
  refine ⟨?_, ?_, ?_⟩
  · intro r c hc
    by_cases hru : r = url
    · subst hru
      by_cases hlt : s.max_allowed_requests < (s.rate_limiter r).getD 1
      · have hf : (s.check_rate_limiting r).1 = false :=
          (check_fst_false_iff s r).mpr hlt
        exact ⟨c, by rw [check_snd_self_rejected s r hf, hc]; rfl, Nat.le_refl c⟩
      · have ht : (s.check_rate_limiting r).1 = true := by
          rw [check_fst_eq]
          simp [Nat.le_of_not_lt hlt]
        refine ⟨c + 1, ?_, Nat.le_succ c⟩
        rw [check_snd_self_allowed s r ht, hc]
        rfl
    · exact ⟨c, by rw [check_snd_other s url r hru, hc], Nat.le_refl c⟩
  · intro hf c hc
    rw [check_snd_self_rejected s url hf, hc]
    rfl
  · intro hf urls
    have hd : ((s.check_rate_limiting url).2).rate_limiter url
        = some ((s.rate_limiter url).getD 1) :=
      check_snd_self_rejected s url hf
    have hm : ((s.check_rate_limiting url).2).max_allowed_requests
        < (s.rate_limiter url).getD 1 := by
      rw [check_snd_max]
      exact (check_fst_false_iff s url).mp hf
    obtain ⟨h1, h2⟩ := runCalls_stuck urls ((s.check_rate_limiting url).2) url _ hd hm
    refine ⟨h1.trans hd.symm, ?_⟩
    rw [check_fst_false_iff, h1, h2]
    exact hm

/-- Witness for C4 on a route whose quota is already exhausted. -/
theorem counter_monotone_and_stuck_witness :
    (runCalls ((sAA.check_rate_limiting "/a").2) ["/a", "/b"]).rate_limiter "/a"
      = ((sAA.check_rate_limiting "/a").2).rate_limiter "/a" ∧
    ((runCalls ((sAA.check_rate_limiting "/a").2) ["/a", "/b"]).check_rate_limiting
        "/a").1 = false :=
  (counter_monotone_and_stuck sAA "/a").2.2 (by decide) ["/a", "/b"]

/-- C7: a sequence of operations that mentions only route `r1` leaves the
counter of any other route `r2` untouched, and the results of a subsequent
`check_rate_limiting` or `handle_request` on `r2` are as from the initial
state. -/
theorem routes_independent (s : NginxServer) (r1 r2 : String) (hne : r2 ≠ r1)
    (rs : List Req) (hall : ∀ q ∈ rs, q.url = r1) :
    (runReqs s rs).rate_limiter r2 = s.rate_limiter r2 ∧
    ((runReqs s rs).check_rate_limiting r2).1 = (s.check_rate_limiting r2).1 ∧
    ∀ m, ((runReqs s rs).handle_request r2 m).1 = (s.handle_request r2 m).1 := by
  obtain ⟨hmap, hmax⟩ := runReqs_frame rs s r2 (fun q hq => by rw [hall q hq]; exact hne)
  have hck : ((runReqs s rs).check_rate_limiting r2).1
      = (s.check_rate_limiting r2).1 := by
    rw [check_fst_eq, check_fst_eq, hmap, hmax]
  refine ⟨hmap, hck, ?_⟩
  intro m
  rw [handle_fst_eq, handle_fst_eq, hck]

/-- Witness for C7: exhausting nothing but `/a` leaves `/b` as fresh. -/
theorem routes_independent_witness :
    (runReqs NginxServer.new [Req.check "/a", Req.handle "/a" "GET"]).rate_limiter "/b"
      = NginxServer.new.rate_limiter "/b" ∧
    ((runReqs NginxServer.new [Req.check "/a", Req.handle "/a" "GET"]).check_rate_limiting
        "/b").1 = (NginxServer.new.check_rate_limiting "/b").1 ∧
    ((runReqs NginxServer.new [Req.check "/a", Req.handle "/a" "GET"]).handle_request
        "/b" "GET").1 = (NginxServer.new.handle_request "/b" "GET").1 := by
  have h := routes_independent NginxServer.new "/a" "/b" (by decide)
    [Req.check "/a", Req.handle "/a" "GET"]
    (by intro q hq; fin_cases hq <;> rfl)
  exact ⟨h.1, h.2.1, h.2.2 "GET"⟩

/-- C8: `handle_request` always answers with status 200, 201, 403 or 404;
403 exactly on a rejected rate check, 404 exactly on an allowed check whose
pair matches no routing-table entry. -/
theorem status_code_classification (s : NginxServer) (url method : String) :
    ((s.handle_request url method).1.1 = 200 ∨
      (s.handle_request url method).1.1 = 201 ∨
      (s.handle_request url method).1.1 = 403 ∨
      (s.handle_request url method).1.1 = 404) ∧
    ((s.handle_request url method).1.1 = 403 ↔
      (s.check_rate_limiting url).1 = false) ∧
    ((s.handle_request url method).1.1 = 404 ↔
      (s.check_rate_limiting url).1 = true ∧
        ¬((url = "/app/status" ∧ method = "GET") ∨
          (url = "/create/user" ∧ method = "POST"))) := by
  rcases hb : (s.check_rate_limiting url).1 with _ | _
  · simp [handle_fst_eq, hb]
  · by_cases h1 : url = "/app/status" ∧ method = "GET"
    · obtain ⟨hu, hm⟩ := h1
      subst hu
      subst hm
      simp [handle_fst_eq, hb, Application.handle_request]
    · by_cases h2 : url = "/create/user" ∧ method = "POST"
      · obtain ⟨hu, hm⟩ := h2
        subst hu
        subst hm
        simp [handle_fst_eq, hb, Application.handle_request]
      · simp [handle_fst_eq, hb, Application.handle_request, h1, h2]

/-- Witness for C8 at a concrete unmatched request. -/
theorem status_code_classification_witness :
    (NginxServer.new.handle_request "/x" "GET").1.1 = 200 ∨
    (NginxServer.new.handle_request "/x" "GET").1.1 = 201 ∨
    (NginxServer.new.handle_request "/x" "GET").1.1 = 403 ∨
    (NginxServer.new.handle_request "/x" "GET").1.1 = 404 :=
  (status_code_classification NginxServer.new "/x" "GET").1

lemma check_inv (s : NginxServer) (u : String) (h : RateInv s) :
    RateInv ((s.check_rate_limiting u).2) := by
  intro r c hc
  rw [check_snd_max]
  by_cases hru : r = u
  · subst hru
    by_cases hlt : s.max_allowed_requests < (s.rate_limiter r).getD 1
    · have hf : (s.check_rate_limiting r).1 = false :=
        (check_fst_false_iff s r).mpr hlt
      rw [check_snd_self_rejected s r hf] at hc
      obtain rfl := (Option.some.inj hc).symm
      rcases hm : s.rate_limiter r with _ | c0
      · exact ⟨Nat.le_refl 1, Nat.succ_le_succ (Nat.zero_le _)⟩
      · exact h r c0 hm
    · have ht : (s.check_rate_limiting r).1 = true := by
        rw [check_fst_eq]
        simp [Nat.le_of_not_lt hlt]
      rw [check_snd_self_allowed s r ht] at hc
      obtain rfl := (Option.some.inj hc).symm
      exact ⟨Nat.succ_le_succ (Nat.zero_le _), Nat.succ_le_succ (Nat.le_of_not_lt hlt)⟩
  · rw [check_snd_other s u r hru] at hc
    exact h r c hc

lemma applyReq_inv (s : NginxServer) (q : Req) (h : RateInv s) :
    RateInv (applyReq s q) := by
  cases q with
  | check u => exact check_inv s u h
  | handle u m =>
    show RateInv ((s.handle_request u m).2)
    rw [handle_snd_eq]
    exact check_inv s u h

lemma runReqs_inv (rs : List Req) (s : NginxServer) (h : RateInv s) :
    RateInv (runReqs s rs) := by
  induction rs generalizing s with
  | nil => exact h
  | cons q qs ih => exact ih (applyReq s q) (applyReq_inv s q h)

/-- C9: from a fresh server, after any sequence of operations every stored
counter `c` satisfies `1 ≤ c ≤ max_allowed_requests + 1`; moreover a single
operation preserves this bound from any state satisfying it. -/
theorem counters_bounded (rs : List Req) :
    RateInv (runReqs NginxServer.new rs) ∧
    ∀ t q, RateInv t → RateInv (applyReq t q) := by
  constructor
  · exact runReqs_inv rs NginxServer.new (fun r c hc => by simp [NginxServer.new] at hc)
  · exact fun t q ht => applyReq_inv t q ht

/-- Witness for C9: one step from the fresh server keeps the bound. -/
theorem counters_bounded_witness :
    RateInv (applyReq NginxServer.new (Req.check "/a")) :=
  (counters_bounded []).2 NginxServer.new (Req.check "/a")
    (fun r c hc => by simp [NginxServer.new] at hc)

/-- C10: the rate limiter keys only on the url: the state after
`handle_request` does not depend on the method; any allowed request, even
one answered `(404, "Not Ok")`, increments the url's counter; and two
mismatched `GET`s on `/create/user` from a fresh server make a correct
`POST` answer `(403, "Not Allowed")`. -/
theorem rate_limit_keyed_on_url_only :
    (∀ s url m1 m2, (NginxServer.handle_request s url m1).2
        = (NginxServer.handle_request s url m2).2) ∧
    (∀ s url m, (NginxServer.check_rate_limiting s url).1 = true →
      ((NginxServer.handle_request s url m).2).rate_limiter url
        = some ((s.rate_limiter url).getD 1 + 1)) ∧
    ((((NginxServer.new.handle_request "/create/user" "GET").2.handle_request
          "/create/user" "GET").2.handle_request "/create/user" "POST").1
      = (403, "Not Allowed")) := by
  refine ⟨?_, ?_, by decide⟩
  · intro s url m1 m2
    rw [handle_snd_eq, handle_snd_eq]
  · intro s url m h
    rw [handle_snd_eq]
    exact check_snd_self_allowed s url h

/-- Witness for C10: a mismatched `GET` still consumes `/create/user` quota. -/
theorem rate_limit_keyed_on_url_only_witness :
    ((NginxServer.new.handle_request "/create/user" "GET").2).rate_limiter "/create/user"
      = some ((NginxServer.new.rate_limiter "/create/user").getD 1 + 1) :=
  rate_limit_keyed_on_url_only.2.1 NginxServer.new "/create/user" "GET" (by decide)
